import Mathlib

/-!
Shallow embedding of `homework.py` / `exceptions.py`: a Telegram bot that
polls the Practicum homework API, compares the freshly fetched status with
the in-memory `current_status`, and notifies a chat on changes.

JSON-decoded Python values are modelled by `PyVal`; raised Python
exceptions by `PyErr`.  The network is abstracted into an `HttpOutcome`
supplied to each cycle of the poll loop; everything downstream of the
decoded response is translated from the source line by line.
-/

/-- A Python value as produced by `json` decoding (plus `None`/`bool`
which Python code can observe).  Dictionaries are association lists in
insertion order, as in Python 3.7+. -/
inductive PyVal where
  | none
  | bool (b : Bool)
  | int (n : Int)
  | str (s : String)
  | list (xs : List PyVal)
  | dict (kvs : List (String × PyVal))

/-- Exceptions this program can raise.  The first five classes come from
`exceptions.py` (`UnknownStatusError` and `TheAnswerDictOrListError` are
declared there but never raised in `homework.py`); the rest are Python
built-ins.  `systemExit` is `SystemExit`, which does NOT derive from
`Exception` and hence is not caught by `except Exception`. -/
inductive PyErr where
  | expectedKeysError (msg : String)
  | unknownStatusError (msg : String)
  | emptyValueError (msg : String)
  | theAnswerStatusCodeNot200Error (msg : String)
  | theAnswerDictOrListError (msg : String)
  | theAnswerListError (msg : String)
  | keyError (key : PyVal)
  | typeError (msg : String)
  | indexError (msg : String)
  | attributeError
  | jsonDecodeError (msg : String)
  | systemExit (msg : String)

/-- Python truthiness, as used by `if homework and ...`. -/
def pyTruthy : PyVal → Bool
  | .none => false
  | .bool b => b
  | .int n => !(n == 0)
  | .str s => !(s == "")
  | .list xs => !xs.isEmpty
  | .dict kvs => !kvs.isEmpty

mutual

/-- Python `==`.  `True == 1` holds in Python; dictionaries are compared
pairwise in order (the dictionaries this program ever compares come from
a single JSON decoding of the same response shape, and in fact
`current_status` is only ever a string, so the dict/dict corner is
unreachable; see `mainCycle`). -/
def pyEq : PyVal → PyVal → Bool
  | .none, .none => true
  | .bool a, .bool b => a == b
  | .int a, .int b => a == b
  | .bool a, .int b => (if a then (1 : Int) else 0) == b
  | .int a, .bool b => a == (if b then (1 : Int) else 0)
  | .str a, .str b => a == b
  | .list as, .list bs => pyEqList as bs
  | .dict as, .dict bs => pyEqPairs as bs
  | _, _ => false

/-- Elementwise Python `==` on lists. -/
def pyEqList : List PyVal → List PyVal → Bool
  | [], [] => true
  | a :: as, b :: bs => pyEq a b && pyEqList as bs
  | _, _ => false

/-- Pairwise Python `==` on dict entries. -/
def pyEqPairs : List (String × PyVal) → List (String × PyVal) → Bool
  | [], [] => true
  | (k1, v1) :: as, (k2, v2) :: bs => k1 == k2 && pyEq v1 v2 && pyEqPairs as bs
  | _, _ => false

end

/-- Python `!=`. -/
def pyNe (a b : PyVal) : Bool := !(pyEq a b)

mutual

/-- Python `repr`.  (CPython quotes strings with apostrophes.) -/
def pyReprOf : PyVal → String
  | .none => "None"
  | .bool true => "True"
  | .bool false => "False"
  | .int n => toString n
  | .str s => "\x27" ++ s ++ "\x27"
  | .list xs => "[" ++ pyReprList xs ++ "]"
  | .dict kvs => "\x7b" ++ pyReprPairs kvs ++ "\x7d"

/-- `repr` of list elements, comma separated. -/
def pyReprList : List PyVal → String
  | [] => ""
  | [x] => pyReprOf x
  | x :: xs => pyReprOf x ++ ", " ++ pyReprList xs

/-- `repr` of dict entries, comma separated. -/
def pyReprPairs : List (String × PyVal) → String
  | [] => ""
  | [(k, v)] => "\x27" ++ k ++ "\x27: " ++ pyReprOf v
  | (k, v) :: rest =>
      "\x27" ++ k ++ "\x27: " ++ pyReprOf v ++ ", " ++ pyReprPairs rest

end

/-- Python `str`, as used by f-string interpolation. -/
def pyStrOf : PyVal → String
  | .str s => s
  | v => pyReprOf v

/-- `str(error)`, as interpolated into the failure message of the loop. -/
def pyErrStr : PyErr → String
  | .expectedKeysError m => m
  | .unknownStatusError m => m
  | .emptyValueError m => m
  | .theAnswerStatusCodeNot200Error m => m
  | .theAnswerDictOrListError m => m
  | .theAnswerListError m => m
  | .keyError k => pyReprOf k
  | .typeError m => m
  | .indexError m => m
  | .attributeError => ""
  | .jsonDecodeError m => m
  | .systemExit m => m

/-- Python `d.get(k)`: the stored value, or `None` when the key is
absent (indistinguishable, by the `is None` tests in the source, from a
stored JSON `null`). -/
def pyGet (kvs : List (String × PyVal)) (k : String) : PyVal :=
  match List.lookup k kvs with
  | some v => v
  | Option.none => .none

/-- Python `v[k]` with a string key `k`. -/
def pySubscriptStr (v : PyVal) (k : String) : Except PyErr PyVal :=
  match v with
  | .dict kvs =>
      match List.lookup k kvs with
      | some w => .ok w
      | Option.none => .error (.keyError (.str k))
  | .list _ => .error (.typeError "list indices must be integers or slices, not str")
  | .str _ => .error (.typeError "string indices must be integers")
  | .int _ => .error (.typeError "\x27int\x27 object is not subscriptable")
  | .bool _ => .error (.typeError "\x27bool\x27 object is not subscriptable")
  | .none => .error (.typeError "\x27NoneType\x27 object is not subscriptable")

/-- Python `v[0]`, as in `return response[0]` / `return homework[0]`. -/
def pySubscriptZero (v : PyVal) : Except PyErr PyVal :=
  match v with
  | .list [] => .error (.indexError "list index out of range")
  | .list (x :: _) => .ok x
  | .str s =>
      match s.data with
      | [] => .error (.indexError "string index out of range")
      | c :: _ => .ok (.str (String.singleton c))
  | .dict _ => .error (.keyError (.int 0))
  | .int _ => .error (.typeError "\x27int\x27 object is not subscriptable")
  | .bool _ => .error (.typeError "\x27bool\x27 object is not subscriptable")
  | .none => .error (.typeError "\x27NoneType\x27 object is not subscriptable")

/-- Python `len(v)`. -/
def pyLen (v : PyVal) : Except PyErr Nat :=
  match v with
  | .str s => .ok s.length
  | .list xs => .ok xs.length
  | .dict kvs => .ok kvs.length
  | .int _ => .error (.typeError "object of type \x27int\x27 has no len()")
  | .bool _ => .error (.typeError "object of type \x27bool\x27 has no len()")
  | .none => .error (.typeError "object of type \x27NoneType\x27 has no len()")

/-- Python `v is None`. -/
def pyIsNone : PyVal → Bool
  | .none => true
  | _ => false

/-- `isinstance(v, dict)`. -/
def pyIsDict : PyVal → Bool
  | .dict _ => true
  | _ => false

/-- `isinstance(v, list)`. -/
def pyIsList : PyVal → Bool
  | .list _ => true
  | _ => false

/-- `RETRY_TIME = 600` (the fixed sleep interval, in seconds). -/
def RETRY_TIME : Nat := 600

/-- `ENDPOINT` of the homework API. -/
def ENDPOINT : String := "https://practicum.yandex.ru/api/user_api/homework_statuses/"

/-- The verdict table `HOMEWORK_STATUSES`. -/
def HOMEWORK_STATUSES : List (String × String) :=
  [("approved", "Работа проверена: ревьюеру всё понравилось. Ура!"),
   ("reviewing", "Работа взята на проверку ревьюером."),
   ("rejected", "Работа проверена: у ревьюера есть замечания.")]

/-- `status in HOMEWORK_STATUSES` / `HOMEWORK_STATUSES[status]`:
Python first evaluates the (logged-only) `not in` test, which raises
`TypeError` on an unhashable key, then performs the raw lookup, which
raises `KeyError` when the key is absent. -/
def verdictLookup (status : PyVal) : Except PyErr String :=
  match status with
  | .str s =>
      match List.lookup s HOMEWORK_STATUSES with
      | some verdict => .ok verdict
      | Option.none => .error (.keyError (.str s))
  | .list _ => .error (.typeError "unhashable type: \x27list\x27")
  | .dict _ => .error (.typeError "unhashable type: \x27dict\x27")
  | v => .error (.keyError v)

/-- `check_response(response)` (`homework.py`, lines 81–104): dictionary
shape check.  A non-dict response is logged and `response[0]` is
returned.  For a dict, `homeworks` is fetched with `.get`; `None` raises
`ExpectedKeysError`; an empty value returns the sentinel `{}`; a
non-list value raises `TheAnswerListError`; otherwise the WHOLE list is
returned.  (`len` on a length-less value raises `TypeError`, which the
`except AttributeError` clause does not catch.) -/
def check_response (response : PyVal) : Except PyErr PyVal :=
  match response with
  | .dict kvs =>
      let answer := pyGet kvs "homeworks"
      if pyIsNone answer then
        .error (.expectedKeysError "Отсутсвует ожидаемый ключ \"homeworks\" в ответе API")
      else
        match pyLen answer with
        | .error e => .error e
        | .ok n =>
            if n == 0 then .ok (.dict [])
            else if pyIsList answer = false then
              .error (.theAnswerListError "Ответ API имеет неправильное значение")
            else .ok answer
  | _ => pySubscriptZero response

/-- `parse_status(homework)` (`homework.py`, lines 107–131): a non-dict
input is logged and `homework[0]` is returned.  For a dict,
`homework_name` is fetched (absence only logged), a `None` status raises
`EmptyValueError`, an unrecognized status is only LOGGED (the declared
`UnknownStatusError` is never raised) and the subsequent raw
`HOMEWORK_STATUSES[homework_status]` lookup then raises `KeyError`. -/
def parse_status (homework : PyVal) : Except PyErr PyVal :=
  match homework with
  | .dict kvs =>
      let homework_name := pyGet kvs "homework_name"
      let homework_status := pyGet kvs "status"
      if pyIsNone homework_status then
        .error (.emptyValueError "Отсутсвует значение status")
      else
        match verdictLookup homework_status with
        | .error e => .error e
        | .ok verdict =>
            .ok (.str ("Изменился статус проверки работы \"" ++ pyStrOf homework_name
                  ++ "\".\n" ++ verdict))
  | _ => pySubscriptZero homework

/-- The per-cycle outcome of the outbound HTTP GET in `get_api_answer`
(the network itself is outside the program): either
`requests.get` raises a `requests.exceptions.RequestException`
(transport error), or the body is not valid JSON, or a response with a
status code and a decoded JSON body is obtained. -/
inductive HttpOutcome where
  | transportError (msg : String)
  | decodeFailure (msg : String)
  | response (statusCode : Nat) (body : PyVal)

/-- `get_api_answer(current_timestamp)` (`homework.py`, lines 58–78),
given the outcome of the HTTP request.  A non-200 status code raises
`TheAnswerStatusCodeNot200Error`; a `RequestException` is re-raised as
`SystemExit` (which `except Exception` does NOT catch); a JSON decode
failure is logged and re-raised.  The `from_date` parameter only shapes
the request and is absorbed into the outcome. -/
def get_api_answer (outcome : HttpOutcome) : Except PyErr PyVal :=
  match outcome with
  | .transportError m => .error (.systemExit m)
  | .decodeFailure m => .error (.jsonDecodeError ("Ошибка полученных данных: " ++ m))
  | .response code body =>
      if code == 200 then .ok body
      else .error (.theAnswerStatusCodeNot200Error
        ("Эндпоинт " ++ ENDPOINT ++ " недоступен. Код ответа API: " ++ toString code))

/-- `send_message(bot, message)` (`homework.py`, lines 49–55): delivers
`message` to the chat; a `TelegramError` is caught and logged, so the
call never raises.  Modelled as appending to the ledger of messages
handed to the bot. -/
def send_message (sent : List PyVal) (message : PyVal) : List PyVal :=
  sent ++ [message]

/-- The in-memory poll state of `main`: `current_status` (initially the
string `'reviewing'`), `current_timestamp`, and the `errors` flag that
is `True` until the first failure notification has been sent. -/
structure LoopState where
  current_status : PyVal
  current_timestamp : PyVal
  errors : Bool

/-- Result of running the `try` body of one loop iteration: the state as
left behind (assignments made before an exception persist), the messages
sent, and the exception that escaped the body, if any. -/
structure TryOut where
  state : LoopState
  sent : List PyVal
  err : Option PyErr

/-- Lines 171–173 of `main`: the code that runs after the `if` block,
`current_timestamp = response['current_date']` (plus a debug log and the
sleep). -/
def cycleTail (s : LoopState) (sent : List PyVal) (response : PyVal) : TryOut :=
  match pySubscriptStr response "current_date" with
  | .error e => ⟨s, sent, some e⟩
  | .ok cd => ⟨{ s with current_timestamp := cd }, sent, Option.none⟩

/-- Lines 165–173 of `main`: the guard
`if homework and current_status != homework['status']:`, the notify
block, and the fall-through tail.  `homework['status']` is evaluated
only when `homework` is truthy (Python `and` short-circuits). -/
def guardAndNotify (s : LoopState) (response homework : PyVal) : TryOut :=
  if pyTruthy homework then
    match pySubscriptStr homework "status" with
    | .error e => ⟨s, [], some e⟩
    | .ok hwStatus =>
        if pyNe s.current_status hwStatus then
          match parse_status homework with
          | .error e => ⟨s, [], some e⟩
          | .ok message =>
              let sent := send_message [] message
              let s1 := { s with current_status := hwStatus }
              match pySubscriptStr response "current_date" with
              | .error e => ⟨s1, sent, some e⟩
              | .ok cd => cycleTail { s1 with current_timestamp := cd } sent response
        else cycleTail s [] response
  else cycleTail s [] response

/-- The whole `try` body of one iteration of `main`'s loop (lines
162–173): fetch, validate, then guard/notify/tail. -/
def tryBody (s : LoopState) (o : HttpOutcome) : TryOut :=
  match get_api_answer o with
  | .error e => ⟨s, [], some e⟩
  | .ok response =>
      match check_response response with
      | .error e => ⟨s, [], some e⟩
      | .ok homework => guardAndNotify s response homework

/-- How one loop iteration ends: the `else` branch (no exception), the
`except Exception` handler, or an uncaught exception (`SystemExit`)
that terminates the loop and the process. -/
inductive CycleExit where
  | normal
  | handled (e : PyErr)
  | fatal (e : PyErr)

/-- `isinstance(e, Exception)`: everything except `SystemExit` (and
`KeyboardInterrupt`, which no modelled operation raises). -/
def isCatchableErr : PyErr → Bool
  | .systemExit _ => false
  | _ => true

/-- One full iteration of `main`'s `while True` loop, including the
`except Exception` handler (lines 185–191): on a caught exception the
failure message `f'Сбой в работе программы: {error}'` is sent only when
`errors` is still `True`, and the flag is cleared. -/
structure CycleResult where
  state : LoopState
  sent : List PyVal
  exit : CycleExit

/-- One iteration of the poll loop of `main` (lines 161–193). -/
def mainCycle (s : LoopState) (o : HttpOutcome) : CycleResult :=
  let t := tryBody s o
  match t.err with
  | Option.none => ⟨t.state, t.sent, .normal⟩
  | some e =>
      if isCatchableErr e then
        if t.state.errors then
          ⟨{ t.state with errors := false },
           send_message t.sent (.str ("Сбой в работе программы: " ++ pyErrStr e)),
           .handled e⟩
        else ⟨t.state, t.sent, .handled e⟩
      else ⟨t.state, t.sent, .fatal e⟩

/-- Result of running the loop over a list of per-cycle HTTP outcomes:
final state, every message sent, and the uncaught exception if the loop
was terminated by one before the outcomes ran out. -/
structure RunOut where
  state : LoopState
  sent : List PyVal
  exited : Option PyErr

/-- The poll loop of `main` over a finite list of per-cycle HTTP
outcomes, stopping early if an uncaught exception terminates it. -/
def runLoop (s : LoopState) : List HttpOutcome → RunOut
  | [] => ⟨s, [], Option.none⟩
  | o :: os =>
      let c := mainCycle s o
      match c.exit with
      | .fatal e => ⟨c.state, c.sent, some e⟩
      | _ =>
          let r := runLoop c.state os
          ⟨r.state, c.sent ++ r.sent, r.exited⟩

/-- `main()` (lines 153–193), from the point where the loop starts:
`current_timestamp = int(time.time())` (the parameter `t0`),
`current_status = 'reviewing'`, `errors = True`. -/
def mainRun (t0 : Int) (outcomes : List HttpOutcome) : RunOut :=
  runLoop ⟨.str "reviewing", .int t0, true⟩ outcomes

/-- Head of every status-change notification built by `parse_status`. -/
def statusChangeMark : String := "Изменился статус проверки работы \""

/-- Head of every failure notification built by the `except Exception`
handler of `main`. -/
def failureMark : String := "Сбой в работе программы: "

/-- Is `m` a status-change notification (does it start with the fixed
head of the `parse_status` message)? -/
def isStatusChangeMsg : PyVal → Bool
  | .str m => statusChangeMark.data.isPrefixOf m.data
  | _ => false

/-- Is `m` a failure notification (does it start with the fixed head of
the handler's message)? -/
def isFailureMsg : PyVal → Bool
  | .str m => failureMark.data.isPrefixOf m.data
  | _ => false

/-- Number of failure notifications in a ledger. -/
def failureCount (msgs : List PyVal) : Nat :=
  (msgs.filter (fun m => isFailureMsg m)).length

theorem String.data_append_eq (a b : String) : (a ++ b).data = a.data ++ b.data := by
  cases a; cases b; rfl

theorem isPrefixOf_append_self (l t : List Char) : l.isPrefixOf (l ++ t) = true := by
  induction l with
  | nil => simp
  | cons c cs ih => simp [List.isPrefixOf_cons₂, ih]

/-- Every message built by `parse_status` is classified as a
status-change notification. -/
theorem isStatusChangeMsg_statusMsg (a b : String) :
    isStatusChangeMsg (.str ("Изменился статус проверки работы \"" ++ a ++ "\".\n" ++ b))
      = true := by
  show statusChangeMark.data.isPrefixOf _ = true
  rw [String.data_append_eq, String.data_append_eq, String.data_append_eq,
    List.append_assoc, List.append_assoc]
  exact isPrefixOf_append_self _ _

/-- A message built by `parse_status` is never classified as a failure
notification (the two fixed heads differ at the first character). -/
theorem not_isFailureMsg_statusMsg (a b : String) :
    isFailureMsg (.str ("Изменился статус проверки работы \"" ++ a ++ "\".\n" ++ b))
      = false := by rfl

/-- The handler's failure message is never classified as a status-change
notification. -/
theorem not_isStatusChangeMsg_failureMsg (t : String) :
    isStatusChangeMsg (.str ("Сбой в работе программы: " ++ t)) = false := by rfl

/-- The handler's failure message is classified as a failure
notification. -/
theorem isFailureMsg_failureMsg (t : String) :
    isFailureMsg (.str ("Сбой в работе программы: " ++ t)) = true := by
  show failureMark.data.isPrefixOf _ = true
  rw [String.data_append_eq]
  exact isPrefixOf_append_self _ _

theorem cycleTail_sent (s : LoopState) (sent : List PyVal) (r : PyVal) :
    (cycleTail s sent r).sent = sent := by
  unfold cycleTail; split <;> rfl

theorem cycleTail_status (s : LoopState) (sent : List PyVal) (r : PyVal) :
    (cycleTail s sent r).state.current_status = s.current_status := by
  unfold cycleTail; split <;> rfl

theorem cycleTail_errors (s : LoopState) (sent : List PyVal) (r : PyVal) :
    (cycleTail s sent r).state.errors = s.errors := by
  unfold cycleTail; split <;> rfl

/-- If the tail raised, the state is exactly the state it was entered
with (in particular `current_timestamp` was not advanced). -/
theorem cycleTail_err_state (s : LoopState) (sent : List PyVal) (r : PyVal) (e : PyErr) :
    (cycleTail s sent r).err = some e → (cycleTail s sent r).state = s := by
  unfold cycleTail; split <;> simp

/-- The `try` body never touches the `errors` flag. -/
theorem tryBody_errors (s : LoopState) (o : HttpOutcome) :
    (tryBody s o).state.errors = s.errors := by
  unfold tryBody
  split
  · rfl
  · split
    · rfl
    · unfold guardAndNotify
      split
      · split
        · rfl
        · split
          · split
            · rfl
            · split
              · rfl
              · rw [cycleTail_errors]
          · rw [cycleTail_errors]
      · rw [cycleTail_errors]

/-- If the `try` body raised, `current_timestamp` still has its value
from the start of the cycle: the two assignments from
`response['current_date']` are reached only when that subscript
succeeds, and the second evaluation of the same subscript cannot fail
after the first succeeded. -/
theorem tryBody_err_timestamp (s : LoopState) (o : HttpOutcome) (e : PyErr) :
    (tryBody s o).err = some e →
    (tryBody s o).state.current_timestamp = s.current_timestamp := by
  unfold tryBody
  split
  · intro _; rfl
  · split
    · intro _; rfl
    · unfold guardAndNotify
      split
      · split
        · intro _; rfl
        · split
          · split
            · intro _; rfl
            · split
              · intro _; rfl
              · rename_i cd heq
                intro h
                exfalso
                simp only [cycleTail, heq] at h
                exact Option.noConfusion h
          · intro h
            exact congrArg LoopState.current_timestamp (cycleTail_err_state _ _ _ _ h)
      · intro h
        exact congrArg LoopState.current_timestamp (cycleTail_err_state _ _ _ _ h)

/-- A successful string subscript forces a dictionary. -/
theorem pySubscriptStr_ok_dict (hw : PyVal) (k : String) (st : PyVal)
    (h : pySubscriptStr hw k = .ok st) :
    ∃ kvs, hw = .dict kvs ∧ List.lookup k kvs = some st := by
  cases hw <;> simp only [pySubscriptStr] at h
  case dict kvs =>
    cases hl : List.lookup k kvs <;> rw [hl] at h
    · exact Except.noConfusion h
    · rename_i w
      injection h with h2
      subst h2
      exact ⟨kvs, rfl, hl⟩
  all_goals exact Except.noConfusion h

/-- A successful verdict-table lookup forces a recognized status string. -/
theorem verdictLookup_ok (v : PyVal) (verdict : String)
    (h : verdictLookup v = .ok verdict) :
    ∃ stS, v = .str stS ∧ List.lookup stS HOMEWORK_STATUSES = some verdict := by
  cases v <;> simp only [verdictLookup] at h
  case str s =>
    cases hl : List.lookup s HOMEWORK_STATUSES <;> rw [hl] at h
    · exact Except.noConfusion h
    · rename_i w
      injection h with h2
      subst h2
      exact ⟨s, rfl, hl⟩
  all_goals exact Except.noConfusion h

/-- Shape of a successful `parse_status` on a dictionary: the status is
a recognized status string, and the result is the formatted
notification. -/
theorem parse_status_ok_shape (kvs : List (String × PyVal)) (msg : PyVal)
    (h : parse_status (.dict kvs) = .ok msg) :
    ∃ stS verdict, pyGet kvs "status" = .str stS ∧
      List.lookup stS HOMEWORK_STATUSES = some verdict ∧
      msg = .str ("Изменился статус проверки работы \""
        ++ pyStrOf (pyGet kvs "homework_name") ++ "\".\n" ++ verdict) := by
  simp only [parse_status] at h
  by_cases hn : pyIsNone (pyGet kvs "status") = true
  · rw [if_pos hn] at h
    exact Except.noConfusion h
  · rw [if_neg hn] at h
    cases hv : verdictLookup (pyGet kvs "status") with
    | error e => rw [hv] at h; exact Except.noConfusion h
    | ok verdict =>
        rw [hv] at h
        obtain ⟨stS, hstr, hl⟩ := verdictLookup_ok _ _ hv
        injection h with h2
        exact ⟨stS, verdict, hstr, hl, h2.symm⟩

/-- Where the messages of the `try` body come from: either nothing was
sent (and `current_status` kept its value), or the cycle went down the
notify path: the fetched, validated `homework` was truthy, its status a
recognized status string different from `current_status`, exactly one
formatted notification was sent, and `current_status` was updated to
the observed status. -/
theorem tryBody_sent_shape (s : LoopState) (o : HttpOutcome) :
    ((tryBody s o).sent = [] ∧ (tryBody s o).state.current_status = s.current_status) ∨
    (∃ resp hw stS a verdict,
      get_api_answer o = .ok resp ∧
      check_response resp = .ok hw ∧
      pyTruthy hw = true ∧
      pySubscriptStr hw "status" = .ok (.str stS) ∧
      pyNe s.current_status (.str stS) = true ∧
      List.lookup stS HOMEWORK_STATUSES = some verdict ∧
      (tryBody s o).sent
        = [.str ("Изменился статус проверки работы \"" ++ a ++ "\".\n" ++ verdict)] ∧
      (tryBody s o).state.current_status = .str stS) := by
  unfold tryBody
  split
  · left; exact ⟨rfl, rfl⟩
  · rename_i resp hga
    split
    · left; exact ⟨rfl, rfl⟩
    · rename_i hw hchk
      unfold guardAndNotify
      split
      · rename_i htr
        split
        · left; exact ⟨rfl, rfl⟩
        · rename_i st hsub
          split
          · rename_i hne
            split
            · left; exact ⟨rfl, rfl⟩
            · rename_i msg hp
              obtain ⟨kvs, hhw, hl⟩ := pySubscriptStr_ok_dict _ _ _ hsub
              subst hhw
              obtain ⟨stS, verdict, hget, hlv, hmsg⟩ := parse_status_ok_shape _ _ hp
              have hst : st = .str stS := by
                unfold pyGet at hget
                rw [hl] at hget
                exact hget
              subst hst
              subst hmsg
              right
              refine ⟨resp, .dict kvs, stS, pyStrOf (pyGet kvs "homework_name"), verdict,
                hga, hchk, htr, hsub, hne, hlv, ?_, ?_⟩
              · split
                · rfl
                · rw [cycleTail_sent]; rfl
              · split
                · rfl
                · rw [cycleTail_status]
          · left
            exact ⟨cycleTail_sent _ _ _, cycleTail_status _ _ _⟩
      · left
        exact ⟨cycleTail_sent _ _ _, cycleTail_status _ _ _⟩

/-- What the handler may add to the messages of a cycle: nothing, or a
single failure notification for the caught exception (only when the
`errors` flag was still set). -/
theorem mainCycle_sent_decomp (s : LoopState) (o : HttpOutcome) :
    (mainCycle s o).sent = (tryBody s o).sent ∨
    ∃ e, (tryBody s o).err = some e ∧ s.errors = true ∧
      (mainCycle s o).state.errors = false ∧
      (mainCycle s o).sent
        = (tryBody s o).sent ++ [.str ("Сбой в работе программы: " ++ pyErrStr e)] := by
  unfold mainCycle
  cases he : (tryBody s o).err with
  | none => left; simp only [he]
  | some e =>
      by_cases hc : isCatchableErr e = true
      · by_cases hf : (tryBody s o).state.errors = true
        · right
          refine ⟨e, rfl, ?_, ?_, ?_⟩
          · rw [tryBody_errors] at hf; exact hf
          · simp [he, hc, hf]
          · simp [he, hc, hf, send_message]
        · left
          simp [he, hc, hf]
      · left
        simp [he, hc]

/-- The handler never touches `current_status`. -/
theorem mainCycle_status (s : LoopState) (o : HttpOutcome) :
    (mainCycle s o).state.current_status = (tryBody s o).state.current_status := by
  unfold mainCycle
  cases he : (tryBody s o).err with
  | none => simp only [he]
  | some e =>
      by_cases hc : isCatchableErr e = true
      · by_cases hf : (tryBody s o).state.errors = true
        · simp [he, hc, hf]
        · simp [he, hc, hf]
      · simp [he, hc]

/-- The handler never touches `current_timestamp`. -/
theorem mainCycle_timestamp (s : LoopState) (o : HttpOutcome) :
    (mainCycle s o).state.current_timestamp
      = (tryBody s o).state.current_timestamp := by
  unfold mainCycle
  cases he : (tryBody s o).err with
  | none => simp only [he]
  | some e =>
      by_cases hc : isCatchableErr e = true
      · by_cases hf : (tryBody s o).state.errors = true
        · simp [he, hc, hf]
        · simp [he, hc, hf]
      · simp [he, hc]

/-- A cycle ends in the `except Exception` handler exactly when the
`try` body raised an exception the handler catches. -/
theorem mainCycle_handled_err (s : LoopState) (o : HttpOutcome) (e : PyErr) :
    (mainCycle s o).exit = .handled e →
    (tryBody s o).err = some e ∧ isCatchableErr e = true := by
  unfold mainCycle
  cases he : (tryBody s o).err with
  | none => simp only [he]; intro h; exact CycleExit.noConfusion h
  | some e' =>
      by_cases hc : isCatchableErr e' = true
      · by_cases hf : (tryBody s o).state.errors = true
        · simp only [he, hc, hf, if_true]
          intro h
          injection h with h2
          subst h2
          exact ⟨rfl, hc⟩
        · simp only [he]
          rw [if_pos hc, if_neg hf]
          intro h
          injection h with h2
          subst h2
          exact ⟨rfl, hc⟩
      · simp only [he]
        rw [if_neg hc]
        intro h
        exact CycleExit.noConfusion h

/-- After a cycle that ended in the handler, the `errors` flag is
cleared. -/
theorem mainCycle_handled_errors (s : LoopState) (o : HttpOutcome) (e : PyErr) :
    (mainCycle s o).exit = .handled e → (mainCycle s o).state.errors = false := by
  unfold mainCycle
  cases he : (tryBody s o).err with
  | none => simp only [he]; intro h; exact CycleExit.noConfusion h
  | some e' =>
      by_cases hc : isCatchableErr e' = true
      · by_cases hf : (tryBody s o).state.errors = true
        · simp [he, hc, hf]
        · simp only [he]
          rw [if_pos hc, if_neg hf]
          intro _
          exact Bool.not_eq_true _ ▸ (by simpa using hf)
      · simp only [he]
        rw [if_neg hc]
        intro h
        exact CycleExit.noConfusion h

/-- The flag can only go from set to cleared, never back. -/
theorem mainCycle_errors_mono (s : LoopState) (o : HttpOutcome) :
    (mainCycle s o).state.errors = true → s.errors = true := by
  unfold mainCycle
  cases he : (tryBody s o).err with
  | none =>
      simp only [he]
      intro h
      rw [tryBody_errors] at h
      exact h
  | some e =>
      by_cases hc : isCatchableErr e = true
      · by_cases hf : (tryBody s o).state.errors = true
        · simp [he, hc, hf]
        · simp only [he]
          rw [if_pos hc, if_neg hf]
          intro h
          rw [tryBody_errors] at h
          exact h
      · simp only [he]
        rw [if_neg hc]
        intro h
        rw [tryBody_errors] at h
        exact h

/-- The `try` body never sends a failure notification. -/
theorem tryBody_fail_free (s : LoopState) (o : HttpOutcome) :
    failureCount (tryBody s o).sent = 0 := by
  rcases tryBody_sent_shape s o with ⟨h, _⟩ | ⟨_, _, _, a, verdict, _, _, _, _, _, _, h, _⟩
  · rw [h]; rfl
  · rw [h]
    simp [failureCount, not_isFailureMsg_statusMsg]

theorem failureCount_append (a b : List PyVal) :
    failureCount (a ++ b) = failureCount a + failureCount b := by
  simp [failureCount, List.filter_append]

/-- One cycle sends a failure notification only by consuming the flag:
the number of failure messages sent plus the flag left behind never
exceeds the flag the cycle started with. -/
theorem mainCycle_failure_bound (s : LoopState) (o : HttpOutcome) :
    failureCount (mainCycle s o).sent
      + (if (mainCycle s o).state.errors = true then 1 else 0)
      ≤ (if s.errors = true then 1 else 0) := by
  rcases mainCycle_sent_decomp s o with h1 | ⟨e, _, hs, hpost, hsent⟩
  · rw [h1, tryBody_fail_free]
    by_cases hp : (mainCycle s o).state.errors = true
    · rw [mainCycle_errors_mono s o hp, if_pos hp]
      simp
    · rw [if_neg hp]
      simp
  · rw [hsent, hpost, hs, failureCount_append, tryBody_fail_free]
    simp [failureCount, isFailureMsg_failureMsg]

/-- Over any run segment, the failure notifications sent are bounded by
the flag at its start. -/
theorem runLoop_failure_bound (outs : List HttpOutcome) : ∀ s : LoopState,
    failureCount (runLoop s outs).sent ≤ (if s.errors = true then 1 else 0) := by
  induction outs with
  | nil => intro s; simp [runLoop, failureCount]
  | cons o os ih =>
      intro s
      have hc := mainCycle_failure_bound s o
      simp only [runLoop]
      cases hx : (mainCycle s o).exit with
      | fatal e =>
          simp only [hx]
          exact le_trans (Nat.le_add_right _ _) hc
      | normal =>
          simp only [hx, failureCount_append]
          have hr := ih (mainCycle s o).state
          calc failureCount (mainCycle s o).sent
                + failureCount (runLoop (mainCycle s o).state os).sent
              ≤ failureCount (mainCycle s o).sent
                + (if (mainCycle s o).state.errors = true then 1 else 0) :=
                Nat.add_le_add_left hr _
            _ ≤ (if s.errors = true then 1 else 0) := hc
      | handled e =>
          simp only [hx, failureCount_append]
          have hr := ih (mainCycle s o).state
          calc failureCount (mainCycle s o).sent
                + failureCount (runLoop (mainCycle s o).state os).sent
              ≤ failureCount (mainCycle s o).sent
                + (if (mainCycle s o).state.errors = true then 1 else 0) :=
                Nat.add_le_add_left hr _
            _ ≤ (if s.errors = true then 1 else 0) := hc

/-- Determinism link: the status value seen by the guard is the status
the notify path stores, so re-polling the same response cannot pass the
guard again. -/
theorem pyNe_str_self (x : String) : pyNe (.str x) (.str x) = false := by
  simp [pyNe, pyEq]

/-- C2.  Invariant of the poll loop: a status-change notification is
sent only when the newly observed status differs from `current_status`
(the post-cycle `current_status` is exactly the newly observed status,
so it differs from the pre-cycle one), and `current_status` is updated
immediately after the successful send, so observing the same status
again in the next cycle never produces a second status-change
notification. -/
theorem c2_notify_only_on_change (s : LoopState) (o : HttpOutcome) (m : PyVal)
    (hm : m ∈ (mainCycle s o).sent) (hsc : isStatusChangeMsg m = true) :
    pyNe s.current_status (mainCycle s o).state.current_status = true ∧
    ∀ m2 ∈ (mainCycle (mainCycle s o).state o).sent, isStatusChangeMsg m2 = false := by
  rcases tryBody_sent_shape s o with ⟨hemp, _⟩ |
    ⟨resp, hw, stS, a, verdict, hga, hchk, htr, hsub, hne, hlv, hsent, hstat⟩
  · -- no status-change message can be in the cycle's ledger: contradiction
    exfalso
    rcases mainCycle_sent_decomp s o with h1 | ⟨e, _, _, _, h2⟩
    · rw [h1, hemp] at hm
      exact List.not_mem_nil _ hm
    · rw [h2, hemp] at hm
      rw [List.nil_append, List.mem_singleton] at hm
      subst hm
      rw [not_isStatusChangeMsg_failureMsg] at hsc
      exact Bool.false_ne_true hsc
  · constructor
    · rw [mainCycle_status, hstat]
      exact hne
    · -- the second cycle observes the same status and skips the guard
      intro m2 hm2
      have hpost : (mainCycle s o).state.current_status = .str stS := by
        rw [mainCycle_status, hstat]
      have hsecond : (tryBody (mainCycle s o).state o).sent = [] := by
        rcases tryBody_sent_shape (mainCycle s o).state o with ⟨h, _⟩ |
          ⟨resp2, hw2, stS2, a2, verdict2, hga2, hchk2, htr2, hsub2, hne2, _, _, _⟩
        · exact h
        · exfalso
          rw [hga] at hga2
          injection hga2 with hresp
          subst hresp
          rw [hchk] at hchk2
          injection hchk2 with hhw
          subst hhw
          rw [hsub] at hsub2
          injection hsub2 with hstv
          injection hstv with hst2
          subst hst2
          rw [hpost, pyNe_str_self] at hne2
          exact Bool.false_ne_true hne2
      rcases mainCycle_sent_decomp (mainCycle s o).state o with h1 | ⟨e, _, _, _, h2⟩
      · rw [h1, hsecond] at hm2
        exact absurd hm2 (List.not_mem_nil _)
      · rw [h2, hsecond, List.nil_append, List.mem_singleton] at hm2
        subst hm2
        exact not_isStatusChangeMsg_failureMsg _

/-- C2 witness. -/
theorem c2_notify_only_on_change_witness :
    pyNe (PyVal.str "reviewing")
      (mainCycle ⟨.str "reviewing", .int 1000, true⟩
        (.response 200 (.list [.dict [("homework_name", .str "x"),
          ("status", .str "approved")]]))).state.current_status = true ∧
    ∀ m2 ∈ (mainCycle
        (mainCycle ⟨.str "reviewing", .int 1000, true⟩
          (.response 200 (.list [.dict [("homework_name", .str "x"),
            ("status", .str "approved")]]))).state
        (.response 200 (.list [.dict [("homework_name", .str "x"),
          ("status", .str "approved")]]))).sent, isStatusChangeMsg m2 = false :=
  c2_notify_only_on_change ⟨.str "reviewing", .int 1000, true⟩
    (.response 200 (.list [.dict [("homework_name", .str "x"),
      ("status", .str "approved")]]))
    (.str "Изменился статус проверки работы \"x\".\nРабота проверена: ревьюеру всё понравилось. Ура!")
    (List.mem_cons_self _ _) (by rfl)

/-- C1.  The spec's changed-status scenario: previous status
`'reviewing'`, response `{'homeworks': [{'homework_name': 'proj1',
'status': 'approved'}], 'current_date': 2200}`.  The claim says exactly
one notification with the homework name and verdict is sent; the code
instead raises `TypeError` at `homework['status']` (because
`check_response` returned the whole list) and the cycle ends in the
handler, sending the first-failure message, leaving `current_status`
and `current_timestamp` untouched. -/
theorem c1_changed_status_cycle_sends_failure_not_notification :
    mainCycle ⟨.str "reviewing", .int 1600, true⟩
      (.response 200 (.dict [("homeworks", .list [.dict [("homework_name", .str "proj1"),
        ("status", .str "approved")]]), ("current_date", .int 2200)]))
    = ⟨⟨.str "reviewing", .int 1600, false⟩,
       [.str "Сбой в работе программы: list indices must be integers or slices, not str"],
       .handled (.typeError "list indices must be integers or slices, not str")⟩ ∧
    ∀ m ∈ (mainCycle ⟨.str "reviewing", .int 1600, true⟩
      (.response 200 (.dict [("homeworks", .list [.dict [("homework_name", .str "proj1"),
        ("status", .str "approved")]]), ("current_date", .int 2200)]))).sent,
      isStatusChangeMsg m = false := by
  refine ⟨rfl, ?_⟩
  intro m hm
  rw [show (mainCycle ⟨.str "reviewing", .int 1600, true⟩
      (.response 200 (.dict [("homeworks", .list [.dict [("homework_name", .str "proj1"),
        ("status", .str "approved")]]), ("current_date", .int 2200)]))).sent
    = [.str "Сбой в работе программы: list indices must be integers or slices, not str"]
    from rfl, List.mem_singleton] at hm
  subst hm
  rfl

/-- C3.  The spec's unchanged-status scenario: previous status
`'reviewing'`, poll at t=1000, response `{'homeworks':
[{'homework_name': 'proj1', 'status': 'reviewing'}], 'current_date':
1600}`.  The claim says no message is sent, the cycle does not raise,
and the timestamp advances to 1600; the code instead raises `TypeError`
at `homework['status']`, sends the first-failure message, and leaves
the timestamp at 1000. -/
theorem c3_unchanged_status_cycle_raises_and_keeps_timestamp :
    mainCycle ⟨.str "reviewing", .int 1000, true⟩
      (.response 200 (.dict [("homeworks", .list [.dict [("homework_name", .str "proj1"),
        ("status", .str "reviewing")]]), ("current_date", .int 1600)]))
    = ⟨⟨.str "reviewing", .int 1000, false⟩,
       [.str "Сбой в работе программы: list indices must be integers or slices, not str"],
       .handled (.typeError "list indices must be integers or slices, not str")⟩ := by rfl

/-- C4.  On a well-formed response with a non-empty `homeworks` list,
`check_response` returns the WHOLE list, not the single most recent
record (the first entry), as the claim states. -/
theorem c4_check_response_returns_whole_list :
    check_response (.dict [("homeworks", .list [.dict [("homework_name", .str "proj1"),
        ("status", .str "approved")]]), ("current_date", .int 2200)])
      = .ok (.list [.dict [("homework_name", .str "proj1"), ("status", .str "approved")]]) ∧
    (Except.ok (PyVal.list [.dict [("homework_name", .str "proj1"), ("status", .str "approved")]])
        : Except PyErr PyVal)
      ≠ .ok (.dict [("homework_name", .str "proj1"), ("status", .str "approved")]) := by
  refine ⟨rfl, ?_⟩
  intro h
  injection h with h2
  exact PyVal.noConfusion h2

/-- C5.  Over any run of the poll loop started with `errors = True`, at
most one failure notification is ever handed to the bot, no matter how
many cycles end in the handler. -/
theorem c5_at_most_one_failure_notification (t0 : Int) (outs : List HttpOutcome) :
    failureCount (mainRun t0 outs).sent ≤ 1 := by
  have h := runLoop_failure_bound outs ⟨.str "reviewing", .int t0, true⟩
  simpa [mainRun] using h

/-- C6.  A transport error is re-raised as `SystemExit`, which the
loop's `except Exception` does not catch: the cycle exits fatally and
the run terminates at once, with no message sent, no state change and
no further cycles. -/
theorem c6_transport_error_terminates_loop (m : String) (s : LoopState)
    (rest : List HttpOutcome) :
    (mainCycle s (.transportError m)).exit = .fatal (.systemExit m) ∧
    runLoop s (.transportError m :: rest) = ⟨s, [], some (.systemExit m)⟩ :=
  ⟨rfl, rfl⟩

/-- C7 counterexample.  On `{'homework_name': 'x', 'status': 'foo'}`
(`'foo'` unrecognized), `parse_status` raises `KeyError('foo')` from
the raw verdict-table lookup, not the declared `UnknownStatusError`. -/
theorem c7_unknown_status_raises_keyerror_not_unknownstatuserror :
    parse_status (.dict [("homework_name", .str "x"), ("status", .str "foo")])
      = .error (.keyError (.str "foo")) ∧
    ∀ msg, parse_status (.dict [("homework_name", .str "x"), ("status", .str "foo")])
      ≠ .error (.unknownStatusError msg) := by
  refine ⟨rfl, ?_⟩
  intro msg h
  rw [show parse_status (.dict [("homework_name", .str "x"), ("status", .str "foo")])
      = Except.error (PyErr.keyError (.str "foo")) from rfl] at h
  injection h with h2
  exact PyErr.noConfusion h2

/-- C7 amended.  For a homework record whose `status` is present but
not one of the three recognized codes, `parse_status` logs and then
raises `KeyError` from the verdict-table lookup (not the declared
`UnknownStatusError`), and no status-change notification is sent in a
cycle that fetched that record. -/
theorem c7_amended_unknown_status_keyerror_no_notification
    (kvs : List (String × PyVal)) (stS : String)
    (hst : pyGet kvs "status" = .str stS)
    (hunk : List.lookup stS HOMEWORK_STATUSES = Option.none)
    (s : LoopState) (o : HttpOutcome) (resp : PyVal)
    (hga : get_api_answer o = .ok resp)
    (hchk : check_response resp = .ok (.dict kvs)) :
    parse_status (.dict kvs) = .error (.keyError (.str stS)) ∧
    ∀ m ∈ (mainCycle s o).sent, isStatusChangeMsg m = false := by
  constructor
  · simp [parse_status, hst, pyIsNone, verdictLookup, hunk]
  · have hsecond : (tryBody s o).sent = [] := by
      rcases tryBody_sent_shape s o with ⟨h, _⟩ |
        ⟨resp2, hw2, stS2, a2, verdict2, hga2, hchk2, _, hsub2, _, hlv2, _, _⟩
      · exact h
      · exfalso
        rw [hga] at hga2
        injection hga2 with h1
        subst h1
        rw [hchk] at hchk2
        injection hchk2 with h2
        obtain ⟨kvs2, hk, hl⟩ := pySubscriptStr_ok_dict _ _ _ hsub2
        rw [← h2] at hk
        injection hk with hk2
        subst hk2
        have hpg : pyGet kvs "status" = .str stS2 := by
          unfold pyGet
          rw [hl]
        rw [hst] at hpg
        injection hpg with h3
        subst h3
        rw [hunk] at hlv2
        exact Option.noConfusion hlv2
    intro m hm
    rcases mainCycle_sent_decomp s o with h1 | ⟨e, _, _, _, h2⟩
    · rw [h1, hsecond] at hm
      exact absurd hm (List.not_mem_nil _)
    · rw [h2, hsecond, List.nil_append, List.mem_singleton] at hm
      subst hm
      exact not_isStatusChangeMsg_failureMsg _

/-- C7 amended witness. -/
theorem c7_amended_unknown_status_witness :
    parse_status (.dict [("homework_name", .str "x"), ("status", .str "foo")])
      = .error (.keyError (.str "foo")) ∧
    ∀ m ∈ (mainCycle ⟨.str "reviewing", .int 0, true⟩
      (.response 200 (.list [.dict [("homework_name", .str "x"),
        ("status", .str "foo")]]))).sent, isStatusChangeMsg m = false :=
  c7_amended_unknown_status_keyerror_no_notification
    [("homework_name", .str "x"), ("status", .str "foo")] "foo" rfl rfl
    ⟨.str "reviewing", .int 0, true⟩
    (.response 200 (.list [.dict [("homework_name", .str "x"), ("status", .str "foo")]]))
    (.list [.dict [("homework_name", .str "x"), ("status", .str "foo")]]) rfl rfl

/-- C8 counterexample.  A mapping response whose `homeworks` key holds
the empty string — present and not a list — makes `check_response`
return the empty-result sentinel `{}` (because the `len(answer) == 0`
test precedes the `isinstance(answer, list)` test) instead of raising
the wrong-shape error the claim demands. -/
theorem c8_empty_nonlist_homeworks_returns_sentinel :
    check_response (.dict [("homeworks", .str "")]) = .ok (.dict []) ∧
    ∀ msg, check_response (.dict [("homeworks", .str "")])
      ≠ .error (.theAnswerListError msg) := by
  refine ⟨rfl, ?_⟩
  intro msg h
  rw [show check_response (.dict [("homeworks", .str "")])
      = Except.ok (PyVal.dict []) from rfl] at h
  exact Except.noConfusion h

/-- C8 amended.  `check_response` raises the wrong-shape error
`TheAnswerListError` for a present, non-list `homeworks` value provided
the value has a `len` and it is nonzero; a non-list value of length 0
yields the empty-result sentinel instead, and a length-less value makes
`len` raise `TypeError`. -/
theorem c8_amended_nonempty_nonlist_homeworks_raises
    (kvs : List (String × PyVal)) (v : PyVal) (n : Nat)
    (hv : pyGet kvs "homeworks" = v) (hnl : pyIsList v = false)
    (hlen : pyLen v = .ok n) (hn : n ≠ 0) :
    check_response (.dict kvs)
      = .error (.theAnswerListError "Ответ API имеет неправильное значение") := by
  have hnone : pyIsNone v = false := by
    cases v <;> simp_all [pyLen, pyIsNone]
  simp [check_response, hv, hnone, hlen, hn, hnl]

/-- C8 amended witness. -/
theorem c8_amended_nonempty_nonlist_witness :
    check_response (.dict [("homeworks", .str "ab")])
      = .error (.theAnswerListError "Ответ API имеет неправильное значение") :=
  c8_amended_nonempty_nonlist_homeworks_raises
    [("homeworks", .str "ab")] (.str "ab") 2 rfl rfl rfl (by decide)

/-- C9 counterexample.  A top-level-list response whose first element
is a valid changed-status record drives the cycle down the notify path
(send, update `current_status`) and only then raises `TypeError` at
`response['current_date']`: the cycle ends on the generic-exception
path, yet `current_status` HAS changed, refuting "only the
already-notified flag (and logging) may change on that path". -/
theorem c9_generic_path_can_change_current_status :
    (mainCycle ⟨.str "reviewing", .int 1000, true⟩
      (.response 200 (.list [.dict [("homework_name", .str "x"),
        ("status", .str "approved")]]))).exit
      = .handled (.typeError "list indices must be integers or slices, not str") ∧
    (mainCycle ⟨.str "reviewing", .int 1000, true⟩
      (.response 200 (.list [.dict [("homework_name", .str "x"),
        ("status", .str "approved")]]))).state.current_status
      ≠ (⟨.str "reviewing", .int 1000, true⟩ : LoopState).current_status := by
  refine ⟨rfl, ?_⟩
  intro h
  rw [show (mainCycle ⟨.str "reviewing", .int 1000, true⟩
      (.response 200 (.list [.dict [("homework_name", .str "x"),
        ("status", .str "approved")]]))).state.current_status
    = .str "approved" from rfl] at h
  injection h with h2
  exact absurd h2 (by decide)

/-- C9 amended.  On the generic-exception path `current_timestamp` is
never advanced (the same `from_date` window is re-queried) and the
`errors` flag is left cleared; the handler itself touches nothing else,
so unless a status-change notification was sent earlier in the same
cycle, `current_status` is unchanged too. -/
theorem c9_amended_handler_frame (s : LoopState) (o : HttpOutcome) (e : PyErr)
    (h : (mainCycle s o).exit = .handled e) :
    (mainCycle s o).state.current_timestamp = s.current_timestamp ∧
    (mainCycle s o).state.errors = false ∧
    ((∀ m ∈ (mainCycle s o).sent, isStatusChangeMsg m = false) →
      (mainCycle s o).state.current_status = s.current_status) := by
  obtain ⟨herr, _⟩ := mainCycle_handled_err s o e h
  refine ⟨?_, mainCycle_handled_errors s o e h, ?_⟩
  · rw [mainCycle_timestamp]
    exact tryBody_err_timestamp s o e herr
  · intro hno
    rw [mainCycle_status]
    rcases tryBody_sent_shape s o with ⟨_, hstat⟩ |
      ⟨resp, hw, stS, a, verdict, _, _, _, _, _, _, hsent, hstat⟩
    · exact hstat
    · exfalso
      have hmem : (PyVal.str ("Изменился статус проверки работы \"" ++ a ++ "\".\n" ++ verdict))
          ∈ (mainCycle s o).sent := by
        rcases mainCycle_sent_decomp s o with h1 | ⟨e2, _, _, _, h2⟩
        · rw [h1, hsent]
          exact List.mem_singleton_self _
        · rw [h2, hsent]
          exact List.mem_append_left _ (List.mem_singleton_self _)
      have hbad := hno _ hmem
      rw [isStatusChangeMsg_statusMsg] at hbad
      exact Bool.noConfusion hbad

/-- C9 amended witness. -/
theorem c9_amended_handler_frame_witness :
    (mainCycle ⟨.str "reviewing", .int 5, true⟩ (.response 200 (.dict []))).state.current_timestamp
      = (⟨.str "reviewing", .int 5, true⟩ : LoopState).current_timestamp ∧
    (mainCycle ⟨.str "reviewing", .int 5, true⟩ (.response 200 (.dict []))).state.errors = false ∧
    ((∀ m ∈ (mainCycle ⟨.str "reviewing", .int 5, true⟩ (.response 200 (.dict []))).sent,
        isStatusChangeMsg m = false) →
      (mainCycle ⟨.str "reviewing", .int 5, true⟩ (.response 200 (.dict []))).state.current_status
        = (⟨.str "reviewing", .int 5, true⟩ : LoopState).current_status) :=
  c9_amended_handler_frame ⟨.str "reviewing", .int 5, true⟩ (.response 200 (.dict []))
    (.expectedKeysError "Отсутсвует ожидаемый ключ \"homeworks\" в ответе API") rfl

/-- C10 counterexample.  The empty list is not a mapping, yet
`parse_status` raises (`IndexError` from `homework[0]`), refuting "for
every input that is not a mapping, `parse_status` does not raise". -/
theorem c10_empty_list_input_raises_indexerror :
    parse_status (.list []) = .error (.indexError "list index out of range") := rfl

/-- C10 amended.  For every non-mapping input that HAS a first element
— e.g. any non-empty list of records — `parse_status` does not raise
and returns `homework[0]` unchanged, producing no formatted
notification. -/
theorem c10_amended_nonempty_list_returns_first (x : PyVal) (xs : List PyVal) :
    parse_status (.list (x :: xs)) = .ok x := rfl
